import Mathlib

/-!
Verification of the service-as-software-agency content pipeline.

Shallow embedding of:
- src/ai_engine/graph/campaign_workflow.py (WorkflowState, the four stage
  nodes, the mock stage bodies, CampaignWorkflow.execute)
- src/ai_engine/nodes/ab_simulator.py (ABSimulatorNode)
- src/backend/routers/campaigns.py (CampaignCreate validation,
  create_campaign, execute_campaign)

Conventions of the embedding:
- Python strings are Lean String; Python len and pydantic min_length count
  code points, matching String.length.
- A stage body that may raise is modelled as a function returning
  Except String <data>: .error e stands for an exception whose str() is e.
  The StageOutcomes record is an oracle choosing, per stage, what the body
  (LLM- or mock-backed) produces; the mock path corresponds to mockOutcomes.
- Python truthiness of an optional-string field (if state.research_error:)
  is pyTruthyOpt: none and some "" are falsy.
- LangGraph merge semantics: each node returns a dict of channel updates;
  keys not returned keep their previous value.  Nodes are embedded as
  functions producing the merged state.  The current_agent mutation inside
  each node is never part of the returned dict, so it does not persist into
  the merged state and is left unchanged here.
- datetime.now() values are threaded as an opaque String parameter.
-/

/-- Python truthiness of an Optional[str]: None and "" are falsy. -/
def pyTruthyOpt : Option String → Bool
  | none => false
  | some s => s ≠ ""

/-- Python str(bool). -/
def pyBoolStr (b : Bool) : String := if b then "True" else "False"

/-- Python text.strip(): drop whitespace from both ends (code points). -/
def pyStrip (s : String) : String :=
  String.mk (((s.data.dropWhile Char.isWhitespace).reverse.dropWhile Char.isWhitespace).reverse)

/-- Python text.split(chr 10)[0]: the code points before the first newline. -/
def pyFirstLine (s : String) : String :=
  String.mk (s.data.takeWhile (fun c => c ≠ '\n'))

/-- Python substring containment (sub in hay) on code-point lists. -/
def hasSub (sub : List Char) : List Char → Bool
  | [] => sub.isEmpty
  | c :: rest => sub.isPrefixOf (c :: rest) || hasSub sub rest

/-- Python dict.get(k, d) over an association list with string keys. -/
def pyDictGet (m : List (String × String)) (k : String) (d : String) : String :=
  match m.find? (fun p => p.1 = k) with
  | some p => p.2
  | none => d

/-! ## Workflow data model (campaign_workflow.py) -/

/-- Output shape of the research stage (both LLM and mock paths build
exactly these five keys). -/
structure ResearchData where
  themes : List String
  key_points : List String
  keywords : List String
  sources : List String
  summary : String
deriving DecidableEq

/-- Output shape of the copywriting stage. -/
structure CopyData where
  headline : String
  body : String
  call_to_action : String
  word_count : Nat
deriving DecidableEq

/-- color_palette dict of the mock designer. -/
structure ColorPalette where
  primary : String
  secondary : String
  accent : String
deriving DecidableEq

/-- layout dict of the mock designer. -/
structure LayoutSpec where
  header : String
  content : String
  footer : String
deriving DecidableEq

/-- typography dict of the mock designer. -/
structure TypographySpec where
  headings : String
  body : String
deriving DecidableEq

/-- Output shape of the design stage, following the mock designer; the
reviewer only ever reads the suggestions field. -/
structure DesignData where
  color_palette : ColorPalette
  image_ideas : List String
  layout : LayoutSpec
  typography : TypographySpec
  suggestions : List String
deriving DecidableEq

/-- metrics dict of the mock reviewer. -/
structure Metrics where
  readability_score : Nat
  seo_score : Nat
  engagement_potential : Nat
deriving DecidableEq

/-- Output shape of the review stage (metrics only present on the mock
path). -/
structure ReviewData where
  score : Nat
  feedback : String
  approved : Bool
  suggestions : List String
  metrics : Option Metrics
deriving DecidableEq

/-- final_content dict assembled by the reviewer node. -/
structure FinalContent where
  headline : String
  body : String
  call_to_action : String
  visual_suggestions : List String
  review_score : Nat
  review_feedback : String
  approved : Bool
  generated_at : String
deriving DecidableEq

/-- WorkflowState (campaign_workflow.py lines 21-49). -/
structure WorkflowState where
  topic : String
  target_audience : String
  tone : String
  content_type : String
  research : Option ResearchData
  research_error : Option String
  copy : Option CopyData
  copy_error : Option String
  design : Option DesignData
  design_error : Option String
  review : Option ReviewData
  review_error : Option String
  final_content : Option FinalContent
  messages : List String
  current_agent : Option String
deriving DecidableEq

/-- Inputs of CampaignWorkflow.execute. -/
structure WorkflowInputs where
  topic : String
  target_audience : String
  tone : String
  content_type : String
deriving DecidableEq

/-- Initial state built by CampaignWorkflow.execute (lines 110-116). -/
def initialState (i : WorkflowInputs) : WorkflowState :=
  { topic := i.topic
    target_audience := i.target_audience
    tone := i.tone
    content_type := i.content_type
    research := none, research_error := none
    copy := none, copy_error := none
    design := none, design_error := none
    review := none, review_error := none
    final_content := none
    messages := ["Starting content generation for: " ++ i.topic]
    current_agent := none }

/-! ## Mock stage bodies (campaign_workflow.py lines 385-463) -/

/-- _run_research_mock. -/
def runResearchMock (s : WorkflowState) : ResearchData :=
  { themes := [s.topic]
    key_points :=
      ["Introduction to " ++ s.topic,
       "Key benefits of " ++ s.topic,
       "Best practices for " ++ s.topic]
    keywords := [s.topic.toLower, s.target_audience.toLower]
    sources := ["Industry reports", "Expert opinions"]
    summary := "Research summary for " ++ s.topic }

/-- The content_type_map dict of _run_copywriter_mock.  The social_media
entry reproduces the four mojibake code points present in the source file
(U+00F0 U+0178 U+017D U+00AF). -/
def contentTypeMap (s : WorkflowState) : List (String × String) :=
  [("blog_post",
    "This is a comprehensive blog post about " ++ s.topic ++ ". It\x27s designed for "
      ++ s.target_audience ++ " and written in a " ++ s.tone ++ " tone."),
   ("social_media", "ðŸŽ¯ " ++ s.topic ++ "\n\nLearn more! #learn"),
   ("email", "Subject: Discover " ++ s.topic ++ "\n\nHi there,\n\nLet us share..."),
   ("ad", "Get " ++ s.topic ++ " Now! Limited time offer.")]

/-- _run_copywriter_mock.  Note the two distinct dict lookups: the body
falls back to the blog_post entry, but word_count falls back to the empty
string. -/
def runCopywriterMock (s : WorkflowState) : CopyData :=
  let m := contentTypeMap s
  { headline := "The Complete Guide to " ++ s.topic
    body := pyDictGet m s.content_type (pyDictGet m "blog_post" "")
    call_to_action := "Get Started Today!"
    word_count := (pyDictGet m s.content_type "").length }

/-- _run_designer_mock (ignores the state). -/
def runDesignerMock (_s : WorkflowState) : DesignData :=
  { color_palette := { primary := "#2563EB", secondary := "#10B981", accent := "#F59E0B" }
    image_ideas :=
      ["Hero banner with text overlay",
       "Data visualization charts",
       "Team/product photos"]
    layout :=
      { header := "Full-width navigation"
        content := "Two-column or single column"
        footer := "Contact info and links" }
    typography := { headings := "Inter Bold", body := "Inter Regular" }
    suggestions :=
      ["Use a hero image at the top",
       "Break up text with bullet points",
       "Add relevant images throughout"] }

/-- _run_reviewer_mock (ignores the state). -/
def runReviewerMock (_s : WorkflowState) : ReviewData :=
  { score := 8
    feedback :=
      "Content is well-written and appropriate for the target audience. "
        ++ "The tone matches the brand guidelines. Ready for publishing with minor tweaks."
    approved := true
    suggestions :=
      ["Add more specific statistics",
       "Include a real customer quote",
       "Proofread for typos"]
    metrics := some { readability_score := 75, seo_score := 85, engagement_potential := 80 } }

/-! ## Stage nodes -/

/-- Per-stage outcome oracle: what the try-block body of each node produces
on a given state; .error e models an exception with str() equal to e.
With no API key configured every body is the mock function (mockOutcomes),
which never raises. -/
structure StageOutcomes where
  researchOutcome : WorkflowState → Except String ResearchData
  copyOutcome : WorkflowState → Except String CopyData
  designOutcome : WorkflowState → Except String DesignData
  reviewOutcome : WorkflowState → Except String ReviewData

/-- The state as seen by a node body: the node has appended its
"Running ... agent..." message before doing any work. -/
def nodeEntryState (agent : String) (s : WorkflowState) : WorkflowState :=
  { s with messages := s.messages ++ ["Running " ++ agent ++ " agent..."] }

/-- _research_node: runs the research body, catching any exception. -/
def researcherNode (oc : StageOutcomes) (s : WorkflowState) : WorkflowState :=
  let s1 := nodeEntryState "research" s
  match oc.researchOutcome s1 with
  | .ok d => { s with research := some d, messages := s1.messages ++ ["Research completed"] }
  | .error e =>
      { s with research_error := some e, messages := s1.messages ++ ["Research error: " ++ e] }

/-- _copywriter_node: skips when research_error is truthy, else runs the
copy body, catching any exception. -/
def copywriterNode (oc : StageOutcomes) (s : WorkflowState) : WorkflowState :=
  let s1 := nodeEntryState "copywriter" s
  if pyTruthyOpt s.research_error then
    { s with copy_error := some "Cannot write without research", messages := s1.messages }
  else
    match oc.copyOutcome s1 with
    | .ok d => { s with copy := some d, messages := s1.messages ++ ["Copywriting completed"] }
    | .error e =>
        { s with copy_error := some e, messages := s1.messages ++ ["Copywriting error: " ++ e] }

/-- _designer_node: skips when copy_error is truthy, else runs the design
body, catching any exception. -/
def designerNode (oc : StageOutcomes) (s : WorkflowState) : WorkflowState :=
  let s1 := nodeEntryState "designer" s
  if pyTruthyOpt s.copy_error then
    { s with design_error := some "Cannot design without copy", messages := s1.messages }
  else
    match oc.designOutcome s1 with
    | .ok d => { s with design := some d, messages := s1.messages ++ ["Design completed"] }
    | .error e =>
        { s with design_error := some e, messages := s1.messages ++ ["Design error: " ++ e] }

/-- The str() of the AttributeError raised when final-content assembly
reads .get on a None copy or design. -/
def noneGetError : String := "\x27NoneType\x27 object has no attribute \x27get\x27"

/-- _reviewer_node: skips when design_error is truthy; else runs the review
body and assembles final_content from state.copy and state.design.  If
either is None the .get call raises an AttributeError, which the same
try/except converts to review_error (discarding the review data). -/
def reviewerNode (oc : StageOutcomes) (now : String) (s : WorkflowState) : WorkflowState :=
  let s1 := nodeEntryState "reviewer" s
  if pyTruthyOpt s.design_error then
    { s with review_error := some "Cannot review without design", messages := s1.messages }
  else
    match oc.reviewOutcome s1 with
    | .error e =>
        { s with review_error := some e, messages := s1.messages ++ ["Review error: " ++ e] }
    | .ok rd =>
        match s.copy, s.design with
        | some cd, some dd =>
            let fc : FinalContent :=
              { headline := cd.headline
                body := cd.body
                call_to_action := cd.call_to_action
                visual_suggestions := dd.suggestions
                review_score := rd.score
                review_feedback := rd.feedback
                approved := rd.approved
                generated_at := now }
            { s with review := some rd, final_content := some fc,
                     messages := s1.messages
                       ++ ["Review completed - Approved: " ++ pyBoolStr rd.approved] }
        | _, _ =>
            { s with review_error := some noneGetError,
                     messages := s1.messages ++ ["Review error: " ++ noneGetError] }

/-- The four stage bodies when no API key is configured. -/
def mockOutcomes : StageOutcomes :=
  { researchOutcome := fun s => .ok (runResearchMock s)
    copyOutcome := fun s => .ok (runCopywriterMock s)
    designOutcome := fun s => .ok (runDesignerMock s)
    reviewOutcome := fun s => .ok (runReviewerMock s) }

/-- The graph researcher -> copywriter -> designer -> reviewer, run on the
initial state. -/
def runPipeline (i : WorkflowInputs) (oc : StageOutcomes) (now : String) : WorkflowState :=
  reviewerNode oc now (designerNode oc (copywriterNode oc (researcherNode oc (initialState i))))

/-- The dict returned by CampaignWorkflow.execute (lines 121-127). -/
structure WorkflowResult where
  research : Option ResearchData
  copy : Option CopyData
  design : Option DesignData
  review : Option ReviewData
  final_content : Option FinalContent
deriving DecidableEq

/-- CampaignWorkflow.execute: run the graph and project the five result
entries. -/
def executeWorkflow (i : WorkflowInputs) (oc : StageOutcomes) (now : String) : WorkflowResult :=
  let r := runPipeline i oc now
  { research := r.research
    copy := r.copy
    design := r.design
    review := r.review
    final_content := r.final_content }

/-! ## A/B simulator (ab_simulator.py) -/

/-- The dict returned by ABSimulatorNode.run; draft_content is none when
the returned dict omits that key (the empty-copy early return). -/
structure ABOutput where
  draft_content : Option String
  ab_test_winner : String
  ab_test_logs : String
deriving DecidableEq

/-- _simulate_audience_test: on a successful response, strip it and pick
Variant B exactly when "Variant B" occurs in the first line, else
Variant A, returning the stripped text as rationale; on an exception,
pick a label via the random draw (true picks Variant A) and report a
random API-error fallback. -/
def simulateAudienceTest (resp : Except String String) (fallbackChoice : Bool) :
    String × String :=
  match resp with
  | .ok content =>
      let text := pyStrip content
      let winner :=
        if hasSub ("Variant B".data) (pyFirstLine text).data then "Variant B" else "Variant A"
      (winner, text)
  | .error _ =>
      let winner := if fallbackChoice then "Variant A" else "Variant B"
      (winner, "API Error. Randomly selected " ++ winner)

/-- ABSimulatorNode.run.  draft is state.get("draft_content", "");
variantResp models the _generate_variant model call (uncaught on error,
hence the Except result); testResp models the audience-test model call
(caught inside _simulate_audience_test).  The Nat counts how many model
calls were issued. -/
def abRun (draft : String) (variantResp : Except String String)
    (testResp : Except String String) (fallbackChoice : Bool) :
    Except String (ABOutput × Nat) :=
  if draft = "" then
    .ok ({ draft_content := none, ab_test_winner := "", ab_test_logs := "No copy to test." }, 0)
  else
    match variantResp with
    | .error e => .error e
    | .ok variantB =>
        let wr := simulateAudienceTest testResp fallbackChoice
        .ok ({ draft_content := some (if wr.1 = "Variant A" then draft else variantB)
               ab_test_winner := wr.1
               ab_test_logs := wr.2 }, 2)

/-- Modelled from the spec wording of claim C3 ("the label that appears
first in the response text"): the first of "Variant A" / "Variant B" to
occur, scanning left to right. -/
def firstLabelIn : List Char → Option String
  | [] => none
  | c :: rest =>
      if ("Variant A".data).isPrefixOf (c :: rest) then some "Variant A"
      else if ("Variant B".data).isPrefixOf (c :: rest) then some "Variant B"
      else firstLabelIn rest

/-! ## Backend campaign store (campaigns.py) -/

/-- A value of the result dict of execute_campaign: one stage's output
dict, or the final-content dict. -/
inductive StageOutput where
  | research (d : ResearchData)
  | copy (d : CopyData)
  | design (d : DesignData)
  | review (d : ReviewData)
  | final (d : FinalContent)
deriving DecidableEq

/-- result.get(key) on the dict built by CampaignWorkflow.execute, whose
keys are exactly research, copy, design, review, final_content. -/
def resultGet (r : WorkflowResult) (key : String) : Option StageOutput :=
  if key = "research" then r.research.map .research
  else if key = "copy" then r.copy.map .copy
  else if key = "design" then r.design.map .design
  else if key = "review" then r.review.map .review
  else if key = "final_content" then r.final_content.map .final
  else none

/-- A stage record of a stored campaign (CampaignStage). -/
structure StageRecord where
  agent : String
  status : String
  output : Option StageOutput
  started_at : Option String
  completed_at : Option String
  error : Option String
deriving DecidableEq

/-- A stored campaign record. The error field is only ever written by the
except branch of execute_campaign. -/
structure Campaign where
  id : String
  name : String
  topic : String
  target_audience : String
  tone : String
  content_type : String
  status : String
  stages : List StageRecord
  final_content : Option FinalContent
  created_at : String
  updated_at : String
  error : Option String
deriving DecidableEq

/-- The validated CampaignCreate model. -/
structure CampaignCreate where
  name : String
  topic : String
  target_audience : String
  tone : String
  content_type : String
deriving DecidableEq

/-- A raw request body for POST /campaigns: none marks an absent field. -/
structure CampaignCreateRequest where
  name : Option String
  topic : Option String
  target_audience : Option String
  tone : Option String
  content_type : Option String
deriving DecidableEq

/-- Pydantic validation of CampaignCreate: name, topic and target_audience
are required; name has min_length 1 and topic has min_length 10; tone and
content_type default when absent.  Error strings abbreviate pydantic's. -/
def validateCampaignCreate (r : CampaignCreateRequest) : Except String CampaignCreate :=
  match r.name, r.topic, r.target_audience with
  | some n, some t, some a =>
      if n.length < 1 then .error "name: ensure this value has at least 1 characters"
      else if t.length < 10 then .error "topic: ensure this value has at least 10 characters"
      else .ok { name := n, topic := t, target_audience := a
                 tone := r.tone.getD "professional"
                 content_type := r.content_type.getD "blog_post" }
  | _, _, _ => .error "field required"

/-- create_campaign: store a pending campaign with four pending stage
placeholders. -/
def createCampaign (cc : CampaignCreate) (cid now : String) : Campaign :=
  { id := cid
    name := cc.name
    topic := cc.topic
    target_audience := cc.target_audience
    tone := cc.tone
    content_type := cc.content_type
    status := "pending"
    stages :=
      [{ agent := "researcher", status := "pending", output := none,
         started_at := none, completed_at := none, error := none },
       { agent := "copywriter", status := "pending", output := none,
         started_at := none, completed_at := none, error := none },
       { agent := "designer", status := "pending", output := none,
         started_at := none, completed_at := none, error := none },
       { agent := "reviewer", status := "pending", output := none,
         started_at := none, completed_at := none, error := none }]
    final_content := none
    created_at := now
    updated_at := now
    error := none }

/-- execute_campaign on a campaign present in the store (campaigns.py
lines 93-131): set status running, run the workflow, then for each stage
record update it only when result.get(stage.agent) is a truthy value (the
stage agents are researcher/copywriter/designer/reviewer, while the result
keys are research/copy/design/review/final_content), copy the
final_content entry, and set status completed.  The except branch is
unreachable because executeWorkflow is total, so it is not modelled. -/
def executeCampaign (c : Campaign) (oc : StageOutcomes) (now : String) : Campaign :=
  let running := { c with status := "running", updated_at := now }
  let result := executeWorkflow
    { topic := c.topic, target_audience := c.target_audience
      tone := c.tone, content_type := c.content_type } oc now
  let stages := running.stages.map (fun st =>
    match resultGet result st.agent with
    | some out =>
        { st with status := "completed", output := some out, completed_at := some now }
    | none => st)
  { running with stages := stages, final_content := result.final_content,
                 status := "completed", updated_at := now }

/-! ## Concrete fixtures used by the proofs -/

/-- Whether an Except value is a success. -/
def isOkE {ε α : Type} : Except ε α → Bool
  | .ok _ => true
  | .error _ => false

/-- The state reaching the reviewer node: the first three nodes applied to
the initial state. -/
def stateBeforeReviewer (i : WorkflowInputs) (oc : StageOutcomes) : WorkflowState :=
  designerNode oc (copywriterNode oc (researcherNode oc (initialState i)))

/-- The end-to-end scenario of the spec: topic Electric Vehicles, audience
Urban commuters, casual tone, social_media content. -/
def demoInputs : WorkflowInputs :=
  { topic := "Electric Vehicles"
    target_audience := "Urban commuters"
    tone := "casual"
    content_type := "social_media" }

/-- Mock pipeline in which the research body raises an exception whose
str() is empty (e.g. raise Exception()). -/
def researchEmptyErrOutcomes : StageOutcomes :=
  { mockOutcomes with researchOutcome := fun _ => .error "" }

/-- Mock pipeline in which the research body raises with message
"API timeout". -/
def researchFailOutcomes : StageOutcomes :=
  { mockOutcomes with researchOutcome := fun _ => .error "API timeout" }

/-- Mock pipeline in which the copywriter body raises an exception whose
str() is empty. -/
def copyEmptyErrOutcomes : StageOutcomes :=
  { mockOutcomes with copyOutcome := fun _ => .error "" }

/-- Outcomes in which every stage body raises with message "boom". -/
def errAllOutcomes : StageOutcomes :=
  { researchOutcome := fun _ => .error "boom"
    copyOutcome := fun _ => .error "boom"
    designOutcome := fun _ => .error "boom"
    reviewOutcome := fun _ => .error "boom" }

/-- The stored campaign of the end-to-end scenario. -/
def demoCampaign : Campaign :=
  createCampaign
    { name := "EV Launch", topic := "Electric Vehicles",
      target_audience := "Urban commuters", tone := "casual",
      content_type := "social_media" }
    "campaign-1" "T0"

/-- A workflow state whose content_type is outside the four known types. -/
def unknownTypeState : WorkflowState :=
  initialState
    { topic := "Electric Vehicles", target_audience := "Urban commuters",
      tone := "casual", content_type := "video" }

/-- An audience-test response in which Variant A appears before
Variant B. -/
def cexResponse : String := "Variant A is better than Variant B"

/-- A request body with every field present but a topic shorter than 10
characters. -/
def shortTopicRequest : CampaignCreateRequest :=
  { name := some "My Campaign", topic := some "EVs",
    target_audience := some "everyone", tone := some "casual",
    content_type := some "ad" }

/-- A request body passing the pydantic constraints. -/
def validRequest : CampaignCreateRequest :=
  { name := some "EV Launch", topic := some "Electric Vehicles",
    target_audience := some "Urban commuters", tone := some "casual",
    content_type := some "social_media" }

/-! ## Helper lemmas: fields each node leaves unchanged -/

theorem researcherNode_copy (oc : StageOutcomes) (s : WorkflowState) :
    (researcherNode oc s).copy = s.copy := by
  cases h : oc.researchOutcome (nodeEntryState "research" s) <;> simp [researcherNode, h]

theorem researcherNode_copy_error (oc : StageOutcomes) (s : WorkflowState) :
    (researcherNode oc s).copy_error = s.copy_error := by
  cases h : oc.researchOutcome (nodeEntryState "research" s) <;> simp [researcherNode, h]

theorem researcherNode_design (oc : StageOutcomes) (s : WorkflowState) :
    (researcherNode oc s).design = s.design := by
  cases h : oc.researchOutcome (nodeEntryState "research" s) <;> simp [researcherNode, h]

theorem researcherNode_design_error (oc : StageOutcomes) (s : WorkflowState) :
    (researcherNode oc s).design_error = s.design_error := by
  cases h : oc.researchOutcome (nodeEntryState "research" s) <;> simp [researcherNode, h]

theorem researcherNode_final_content (oc : StageOutcomes) (s : WorkflowState) :
    (researcherNode oc s).final_content = s.final_content := by
  cases h : oc.researchOutcome (nodeEntryState "research" s) <;> simp [researcherNode, h]

theorem copywriterNode_research_error (oc : StageOutcomes) (s : WorkflowState) :
    (copywriterNode oc s).research_error = s.research_error := by
  cases hb : pyTruthyOpt s.research_error <;>
    cases h : oc.copyOutcome (nodeEntryState "copywriter" s) <;>
      simp [copywriterNode, hb, h]

theorem copywriterNode_design (oc : StageOutcomes) (s : WorkflowState) :
    (copywriterNode oc s).design = s.design := by
  cases hb : pyTruthyOpt s.research_error <;>
    cases h : oc.copyOutcome (nodeEntryState "copywriter" s) <;>
      simp [copywriterNode, hb, h]

theorem copywriterNode_design_error (oc : StageOutcomes) (s : WorkflowState) :
    (copywriterNode oc s).design_error = s.design_error := by
  cases hb : pyTruthyOpt s.research_error <;>
    cases h : oc.copyOutcome (nodeEntryState "copywriter" s) <;>
      simp [copywriterNode, hb, h]

theorem copywriterNode_final_content (oc : StageOutcomes) (s : WorkflowState) :
    (copywriterNode oc s).final_content = s.final_content := by
  cases hb : pyTruthyOpt s.research_error <;>
    cases h : oc.copyOutcome (nodeEntryState "copywriter" s) <;>
      simp [copywriterNode, hb, h]

theorem designerNode_research_error (oc : StageOutcomes) (s : WorkflowState) :
    (designerNode oc s).research_error = s.research_error := by
  cases hb : pyTruthyOpt s.copy_error <;>
    cases h : oc.designOutcome (nodeEntryState "designer" s) <;>
      simp [designerNode, hb, h]

theorem designerNode_copy (oc : StageOutcomes) (s : WorkflowState) :
    (designerNode oc s).copy = s.copy := by
  cases hb : pyTruthyOpt s.copy_error <;>
    cases h : oc.designOutcome (nodeEntryState "designer" s) <;>
      simp [designerNode, hb, h]

theorem designerNode_copy_error (oc : StageOutcomes) (s : WorkflowState) :
    (designerNode oc s).copy_error = s.copy_error := by
  cases hb : pyTruthyOpt s.copy_error <;>
    cases h : oc.designOutcome (nodeEntryState "designer" s) <;>
      simp [designerNode, hb, h]

theorem designerNode_final_content (oc : StageOutcomes) (s : WorkflowState) :
    (designerNode oc s).final_content = s.final_content := by
  cases hb : pyTruthyOpt s.copy_error <;>
    cases h : oc.designOutcome (nodeEntryState "designer" s) <;>
      simp [designerNode, hb, h]

theorem reviewerNode_research_error (oc : StageOutcomes) (now : String) (s : WorkflowState) :
    (reviewerNode oc now s).research_error = s.research_error := by
  cases hb : pyTruthyOpt s.design_error <;>
    cases h : oc.reviewOutcome (nodeEntryState "reviewer" s) <;>
      cases hc : s.copy <;> cases hd : s.design <;>
        simp [reviewerNode, hb, h, hc, hd]

theorem reviewerNode_copy (oc : StageOutcomes) (now : String) (s : WorkflowState) :
    (reviewerNode oc now s).copy = s.copy := by
  cases hb : pyTruthyOpt s.design_error <;>
    cases h : oc.reviewOutcome (nodeEntryState "reviewer" s) <;>
      cases hc : s.copy <;> cases hd : s.design <;>
        simp [reviewerNode, hb, h, hc, hd]

theorem reviewerNode_copy_error (oc : StageOutcomes) (now : String) (s : WorkflowState) :
    (reviewerNode oc now s).copy_error = s.copy_error := by
  cases hb : pyTruthyOpt s.design_error <;>
    cases h : oc.reviewOutcome (nodeEntryState "reviewer" s) <;>
      cases hc : s.copy <;> cases hd : s.design <;>
        simp [reviewerNode, hb, h, hc, hd]

theorem reviewerNode_design (oc : StageOutcomes) (now : String) (s : WorkflowState) :
    (reviewerNode oc now s).design = s.design := by
  cases hb : pyTruthyOpt s.design_error <;>
    cases h : oc.reviewOutcome (nodeEntryState "reviewer" s) <;>
      cases hc : s.copy <;> cases hd : s.design <;>
        simp [reviewerNode, hb, h, hc, hd]

theorem reviewerNode_design_error (oc : StageOutcomes) (now : String) (s : WorkflowState) :
    (reviewerNode oc now s).design_error = s.design_error := by
  cases hb : pyTruthyOpt s.design_error <;>
    cases h : oc.reviewOutcome (nodeEntryState "reviewer" s) <;>
      cases hc : s.copy <;> cases hd : s.design <;>
        simp [reviewerNode, hb, h, hc, hd]



/-! ## Claim theorems -/

/-- C9: for every state whose draft_content is empty, ABSimulatorNode.run
returns immediately with winner "" and the "No copy to test." log, issuing
zero model calls, whatever the two model calls would have produced. -/
theorem ab_empty_copy_short_circuit (variantResp testResp : Except String String)
    (fallbackChoice : Bool) :
    abRun "" variantResp testResp fallbackChoice =
      .ok ({ draft_content := none, ab_test_winner := "", ab_test_logs := "No copy to test." },
           0) := rfl

/-- C8: when the audience-simulation call throws, _simulate_audience_test
does not propagate the exception: the winner is one of Variant A and
Variant B (per the random draw) and the log records a random choice due to
an API error. -/
theorem ab_api_error_random_fallback (e : String) (c : Bool) :
    ((simulateAudienceTest (.error e) c).1 = "Variant A" ∨
      (simulateAudienceTest (.error e) c).1 = "Variant B") ∧
    (simulateAudienceTest (.error e) c).2 =
      "API Error. Randomly selected " ++ (simulateAudienceTest (.error e) c).1 := by
  cases c <;> simp [simulateAudienceTest]

/-- C3 counterexample: on the response "Variant A is better than
Variant B" the first label appearing in the text is Variant A, yet the
selector declares Variant B the winner, so the winner is not the label
that appears first in the response. -/
theorem ab_winner_differs_from_first_label :
    (simulateAudienceTest (.ok cexResponse) true).1 = "Variant B" ∧
    firstLabelIn cexResponse.data = some "Variant A" ∧
    ("Variant B" : String) ≠ "Variant A" := by decide

/-- C3 amended: on a successful audience-test response the winner is
Variant B exactly when the first line of the stripped response contains
"Variant B" as a substring (otherwise Variant A), the rationale is the
stripped response, and the winning copy is the variant carrying the
winning label. -/
theorem ab_winner_by_first_line (draft variantB content : String) (fb : Bool)
    (h : draft ≠ "") :
    abRun draft (.ok variantB) (.ok content) fb =
      .ok ({ draft_content :=
               some (if (simulateAudienceTest (.ok content) fb).1 = "Variant A"
                     then draft else variantB)
             ab_test_winner := (simulateAudienceTest (.ok content) fb).1
             ab_test_logs := pyStrip content }, 2) ∧
    (simulateAudienceTest (.ok content) fb).1 =
      (if hasSub ("Variant B".data) (pyFirstLine (pyStrip content)).data
       then "Variant B" else "Variant A") := by
  constructor
  · simp [abRun, h, simulateAudienceTest]
  · simp [simulateAudienceTest]

/-- C3 witness: the amended theorem applied to a concrete nonempty draft
and a response whose first line names Variant B. -/
theorem ab_winner_by_first_line_witness :
    abRun "Buy the original now" (.ok "BUY. IT. NOW.")
        (.ok "Variant B\nPunchier and more direct.") true =
      .ok ({ draft_content :=
               some (if (simulateAudienceTest
                          (.ok "Variant B\nPunchier and more direct.") true).1 = "Variant A"
                     then "Buy the original now" else "BUY. IT. NOW.")
             ab_test_winner :=
               (simulateAudienceTest (.ok "Variant B\nPunchier and more direct.") true).1
             ab_test_logs := pyStrip "Variant B\nPunchier and more direct." }, 2) ∧
    (simulateAudienceTest (.ok "Variant B\nPunchier and more direct.") true).1 =
      (if hasSub ("Variant B".data)
           (pyFirstLine (pyStrip "Variant B\nPunchier and more direct.")).data
       then "Variant B" else "Variant A") :=
  ab_winner_by_first_line "Buy the original now" "BUY. IT. NOW."
    "Variant B\nPunchier and more direct." true (by decide)

/-- C2 counterexample: when the research body raises an exception whose
str() is empty, research_error is recorded as the empty string, yet the
empty string is falsy in Python, so the copywriter does not skip: no
"cannot proceed" errors are recorded and a final-content record is still
produced. -/
theorem research_empty_error_not_short_circuited :
    (runPipeline demoInputs researchEmptyErrOutcomes "T").research_error = some "" ∧
    (runPipeline demoInputs researchEmptyErrOutcomes "T").copy_error = none ∧
    (runPipeline demoInputs researchEmptyErrOutcomes "T").design_error = none ∧
    (runPipeline demoInputs researchEmptyErrOutcomes "T").review_error = none ∧
    (runPipeline demoInputs researchEmptyErrOutcomes "T").final_content.isSome = true := by
  refine ⟨rfl, rfl, rfl, rfl, rfl⟩

/-- C2 amended: whenever the research stage records a non-empty error
string, the copywriter, designer and reviewer each record their fixed
cannot-proceed error and no final-content record is produced. -/
theorem research_error_short_circuits (i : WorkflowInputs) (oc : StageOutcomes)
    (now e : String) (he : e ≠ "")
    (hr : (runPipeline i oc now).research_error = some e) :
    (runPipeline i oc now).copy_error = some "Cannot write without research" ∧
    (runPipeline i oc now).design_error = some "Cannot design without copy" ∧
    (runPipeline i oc now).review_error = some "Cannot review without design" ∧
    (runPipeline i oc now).final_content = none := by
  have hs1 : (researcherNode oc (initialState i)).research_error = some e := by
    simpa [runPipeline, reviewerNode_research_error, designerNode_research_error,
      copywriterNode_research_error] using hr
  have hfc1 : (researcherNode oc (initialState i)).final_content = none := by
    simp [researcherNode_final_content, initialState]
  have htr : pyTruthyOpt (researcherNode oc (initialState i)).research_error = true := by
    simp [hs1, pyTruthyOpt, he]
  have hs2 : copywriterNode oc (researcherNode oc (initialState i)) =
      { researcherNode oc (initialState i) with
        copy_error := some "Cannot write without research"
        messages := (nodeEntryState "copywriter" (researcherNode oc (initialState i))).messages } := by
    simp [copywriterNode, htr]
  have htc : pyTruthyOpt (copywriterNode oc (researcherNode oc (initialState i))).copy_error
      = true := by
    rw [hs2]; simp [pyTruthyOpt]
  have hs3 : designerNode oc (copywriterNode oc (researcherNode oc (initialState i))) =
      { copywriterNode oc (researcherNode oc (initialState i)) with
        design_error := some "Cannot design without copy"
        messages := (nodeEntryState "designer"
          (copywriterNode oc (researcherNode oc (initialState i)))).messages } := by
    simp [designerNode, htc]
  have htd : pyTruthyOpt
      (designerNode oc (copywriterNode oc (researcherNode oc (initialState i)))).design_error
      = true := by
    rw [hs3]; simp [pyTruthyOpt]
  have hs4 : runPipeline i oc now =
      { designerNode oc (copywriterNode oc (researcherNode oc (initialState i))) with
        review_error := some "Cannot review without design"
        messages := (nodeEntryState "reviewer"
          (designerNode oc (copywriterNode oc (researcherNode oc (initialState i))))).messages } := by
    simp [runPipeline, reviewerNode, htd]
  rw [hs4]
  refine ⟨?_, ?_, rfl, ?_⟩
  · rw [hs3]; rw [hs2]
  · rw [hs3]
  · show (designerNode oc (copywriterNode oc (researcherNode oc (initialState i)))).final_content
      = none
    rw [designerNode_final_content, copywriterNode_final_content, hfc1]

/-- C2 witness: the amended theorem applied to the mock pipeline whose
research body raises with the non-empty message "API timeout". -/
theorem research_error_short_circuits_witness :
    (runPipeline demoInputs researchFailOutcomes "T").copy_error
        = some "Cannot write without research" ∧
    (runPipeline demoInputs researchFailOutcomes "T").design_error
        = some "Cannot design without copy" ∧
    (runPipeline demoInputs researchFailOutcomes "T").review_error
        = some "Cannot review without design" ∧
    (runPipeline demoInputs researchFailOutcomes "T").final_content = none :=
  research_error_short_circuits demoInputs researchFailOutcomes "T" "API timeout"
    (by decide) rfl

/-- C10 counterexample: when the copywriter body raises an exception whose
str() is empty, copy_error is the (falsy) empty string, so the designer
still runs and records no design error; the reviewer then runs with no
design error but with copy missing, and its final-content assembly reads
.get on None, which the stage try/except converts into the AttributeError
message. -/
theorem reviewer_runs_with_missing_copy :
    (stateBeforeReviewer demoInputs copyEmptyErrOutcomes).design_error = none ∧
    (stateBeforeReviewer demoInputs copyEmptyErrOutcomes).copy = none ∧
    (runPipeline demoInputs copyEmptyErrOutcomes "T").review_error = some noneGetError ∧
    (runPipeline demoInputs copyEmptyErrOutcomes "T").final_content = none := by
  refine ⟨rfl, rfl, rfl, rfl⟩

/-- C10 amended: in every reachable state in which the reviewer runs with
no design error recorded, and in which the copywriter did not record an
empty error string, the accumulated copy and design outputs are both
non-null, so the final-content assembly never reads a field from a missing
map. -/
theorem reviewer_inputs_present (i : WorkflowInputs) (oc : StageOutcomes)
    (hd : (stateBeforeReviewer i oc).design_error = none)
    (hc : (stateBeforeReviewer i oc).copy_error ≠ some "") :
    (stateBeforeReviewer i oc).copy.isSome = true ∧
    (stateBeforeReviewer i oc).design.isSome = true := by
  cases hb : pyTruthyOpt (copywriterNode oc (researcherNode oc (initialState i))).copy_error with
  | true =>
      exfalso
      rw [show stateBeforeReviewer i oc
            = designerNode oc (copywriterNode oc (researcherNode oc (initialState i))) from rfl]
        at hd
      simp [designerNode, hb] at hd
  | false =>
      cases h : oc.designOutcome
          (nodeEntryState "designer" (copywriterNode oc (researcherNode oc (initialState i)))) with
      | error e =>
          exfalso
          rw [show stateBeforeReviewer i oc
                = designerNode oc (copywriterNode oc (researcherNode oc (initialState i))) from rfl]
            at hd
          simp [designerNode, hb, h] at hd
      | ok dd =>
          have hdes : (stateBeforeReviewer i oc).design = some dd := by
            simp [stateBeforeReviewer, designerNode, hb, h]
          have hcpeq : (stateBeforeReviewer i oc).copy
              = (copywriterNode oc (researcherNode oc (initialState i))).copy := by
            simp [stateBeforeReviewer, designerNode, hb, h]
          have hceeq : (stateBeforeReviewer i oc).copy_error
              = (copywriterNode oc (researcherNode oc (initialState i))).copy_error :=
            designerNode_copy_error oc _
          have hce : (copywriterNode oc (researcherNode oc (initialState i))).copy_error
              = none := by
            cases hcc : (copywriterNode oc (researcherNode oc (initialState i))).copy_error with
            | none => rfl
            | some s =>
                have hs : s = "" := by simpa [pyTruthyOpt, hcc] using hb
                exact absurd (by rw [hceeq, hcc, hs]) hc
          cases hbr : pyTruthyOpt (researcherNode oc (initialState i)).research_error with
          | true => simp [copywriterNode, hbr] at hce
          | false =>
              cases hco : oc.copyOutcome
                  (nodeEntryState "copywriter" (researcherNode oc (initialState i))) with
              | error e => simp [copywriterNode, hbr, hco] at hce
              | ok cd =>
                  have hcp : (copywriterNode oc (researcherNode oc (initialState i))).copy
                      = some cd := by
                    simp [copywriterNode, hbr, hco]
                  constructor
                  · rw [hcpeq, hcp]; rfl
                  · rw [hdes]; rfl

/-- C10 witness: the amended theorem applied to the mock pipeline, where no
stage errors at all. -/
theorem reviewer_inputs_present_witness :
    (stateBeforeReviewer demoInputs mockOutcomes).copy.isSome = true ∧
    (stateBeforeReviewer demoInputs mockOutcomes).design.isSome = true :=
  reviewer_inputs_present demoInputs mockOutcomes rfl
    (by rw [show (stateBeforeReviewer demoInputs mockOutcomes).copy_error = none from rfl]
        simp)

/-- C4: when no upstream stage errored, the final-content record assembled
by the reviewer has headline, body and call_to_action exactly equal to the
copywriter stage output fields. -/
theorem final_content_matches_copy (i : WorkflowInputs) (oc : StageOutcomes) (now : String)
    (hre : (runPipeline i oc now).research_error = none)
    (hce : (runPipeline i oc now).copy_error = none)
    (hde : (runPipeline i oc now).design_error = none)
    (fc : FinalContent) (hfc : (runPipeline i oc now).final_content = some fc) :
    ∃ cd, (runPipeline i oc now).copy = some cd ∧
      fc.headline = cd.headline ∧ fc.body = cd.body ∧
      fc.call_to_action = cd.call_to_action := by
  have hfc3 : (stateBeforeReviewer i oc).final_content = none := by
    simp [stateBeforeReviewer, designerNode_final_content, copywriterNode_final_content,
      researcherNode_final_content, initialState]
  have hrun : runPipeline i oc now = reviewerNode oc now (stateBeforeReviewer i oc) := rfl
  rw [hrun] at hfc
  cases hb : pyTruthyOpt (stateBeforeReviewer i oc).design_error with
  | true => simp [reviewerNode, hb, hfc3] at hfc
  | false =>
      cases h : oc.reviewOutcome (nodeEntryState "reviewer" (stateBeforeReviewer i oc)) with
      | error e => simp [reviewerNode, hb, h, hfc3] at hfc
      | ok rd =>
          cases hcp : (stateBeforeReviewer i oc).copy with
          | none => simp [reviewerNode, hb, h, hcp, hfc3] at hfc
          | some cd =>
              cases hdd : (stateBeforeReviewer i oc).design with
              | none => simp [reviewerNode, hb, h, hcp, hdd, hfc3] at hfc
              | some dd =>
                  have hfc2 :
                      ({ headline := cd.headline, body := cd.body,
                         call_to_action := cd.call_to_action,
                         visual_suggestions := dd.suggestions,
                         review_score := rd.score, review_feedback := rd.feedback,
                         approved := rd.approved, generated_at := now } : FinalContent)
                        = fc := by
                    simpa [reviewerNode, hb, h, hcp, hdd] using hfc
                  refine ⟨cd, ?_, ?_, ?_, ?_⟩
                  · rw [hrun, reviewerNode_copy, hcp]
                  · rw [← hfc2]
                  · rw [← hfc2]
                  · rw [← hfc2]

/-- C4 witness: the theorem applied to the mock end-to-end run, whose
final content is the concrete social_media record. -/
theorem final_content_matches_copy_witness :
    ∃ cd, (runPipeline demoInputs mockOutcomes "T").copy = some cd ∧
      ({ headline := "The Complete Guide to Electric Vehicles"
         body := "ðŸŽ¯ Electric Vehicles\n\nLearn more! #learn"
         call_to_action := "Get Started Today!"
         visual_suggestions :=
           ["Use a hero image at the top", "Break up text with bullet points",
            "Add relevant images throughout"]
         review_score := 8
         review_feedback :=
           "Content is well-written and appropriate for the target audience. The tone matches the brand guidelines. Ready for publishing with minor tweaks."
         approved := true
         generated_at := "T" } : FinalContent).headline = cd.headline ∧
      ({ headline := "The Complete Guide to Electric Vehicles"
         body := "ðŸŽ¯ Electric Vehicles\n\nLearn more! #learn"
         call_to_action := "Get Started Today!"
         visual_suggestions :=
           ["Use a hero image at the top", "Break up text with bullet points",
            "Add relevant images throughout"]
         review_score := 8
         review_feedback :=
           "Content is well-written and appropriate for the target audience. The tone matches the brand guidelines. Ready for publishing with minor tweaks."
         approved := true
         generated_at := "T" } : FinalContent).body = cd.body ∧
      ({ headline := "The Complete Guide to Electric Vehicles"
         body := "ðŸŽ¯ Electric Vehicles\n\nLearn more! #learn"
         call_to_action := "Get Started Today!"
         visual_suggestions :=
           ["Use a hero image at the top", "Break up text with bullet points",
            "Add relevant images throughout"]
         review_score := 8
         review_feedback :=
           "Content is well-written and appropriate for the target audience. The tone matches the brand guidelines. Ready for publishing with minor tweaks."
         approved := true
         generated_at := "T" } : FinalContent).call_to_action = cd.call_to_action :=
  final_content_matches_copy demoInputs mockOutcomes "T" rfl rfl rfl _ rfl

set_option maxRecDepth 4000 in
/-- C5 counterexample: for content_type "video" the mock copywriter result
does not equal the blog_post result: the body does fall back to the
blog_post template, but word_count falls back to the length of the empty
string (0) instead of the blog_post body length. -/
theorem copywriter_mock_unknown_type_not_equal_blog :
    runCopywriterMock unknownTypeState
      ≠ runCopywriterMock { unknownTypeState with content_type := "blog_post" } ∧
    (runCopywriterMock unknownTypeState).body
      = (runCopywriterMock { unknownTypeState with content_type := "blog_post" }).body ∧
    (runCopywriterMock unknownTypeState).word_count = 0 ∧
    (runCopywriterMock { unknownTypeState with content_type := "blog_post" }).word_count
      ≠ 0 := by
  refine ⟨by decide, rfl, rfl, by decide⟩

/-- C5 amended: for every state whose content_type is not one of
blog_post, social_media, email or ad, the mock copywriter result has the
same headline, body (the blog_post-template body) and call_to_action as
the blog_post result, but its word_count is 0 (the fallback of the second
lookup is the empty string) rather than the blog_post word_count. -/
theorem copywriter_mock_fallback (s : WorkflowState)
    (h : s.content_type ∉ (["blog_post", "social_media", "email", "ad"] : List String)) :
    (runCopywriterMock s).headline
      = (runCopywriterMock { s with content_type := "blog_post" }).headline ∧
    (runCopywriterMock s).body
      = (runCopywriterMock { s with content_type := "blog_post" }).body ∧
    (runCopywriterMock s).call_to_action
      = (runCopywriterMock { s with content_type := "blog_post" }).call_to_action ∧
    (runCopywriterMock s).word_count = 0 := by
  simp only [List.mem_cons, not_or] at h
  obtain ⟨h1, h2, h3, h4, -⟩ := h
  have h1' : ¬("blog_post" = s.content_type) := fun hh => h1 hh.symm
  have h2' : ¬("social_media" = s.content_type) := fun hh => h2 hh.symm
  have h3' : ¬("email" = s.content_type) := fun hh => h3 hh.symm
  have h4' : ¬("ad" = s.content_type) := fun hh => h4 hh.symm
  refine ⟨rfl, ?_, rfl, ?_⟩ <;>
    simp [runCopywriterMock, pyDictGet, contentTypeMap, List.find?, h1', h2', h3', h4']

/-- C5 witness: the amended theorem applied to the "video" content type. -/
theorem copywriter_mock_fallback_witness :
    (runCopywriterMock unknownTypeState).headline
      = (runCopywriterMock { unknownTypeState with content_type := "blog_post" }).headline ∧
    (runCopywriterMock unknownTypeState).body
      = (runCopywriterMock { unknownTypeState with content_type := "blog_post" }).body ∧
    (runCopywriterMock unknownTypeState).call_to_action
      = (runCopywriterMock { unknownTypeState with content_type := "blog_post" }).call_to_action ∧
    (runCopywriterMock unknownTypeState).word_count = 0 :=
  copywriter_mock_fallback unknownTypeState (by decide)

/-- C6 counterexample: a request body with all five fields present but a
topic of 3 characters is rejected by the pydantic min_length validation,
so field presence alone does not make create succeed. -/
theorem create_rejects_present_fields :
    shortTopicRequest.name.isSome = true ∧
    shortTopicRequest.topic.isSome = true ∧
    shortTopicRequest.target_audience.isSome = true ∧
    shortTopicRequest.tone.isSome = true ∧
    shortTopicRequest.content_type.isSome = true ∧
    isOkE (validateCampaignCreate shortTopicRequest) = false := by decide

/-- C6 amended: create accepts any request body in which name, topic and
target_audience are present with name at least 1 character and topic at
least 10 characters (tone and content_type default when absent); beyond
these pydantic length constraints there is no validation, and the stored
campaign is pending with four pending stage placeholders and no final
content. -/
theorem create_accepts_valid_requests (r : CampaignCreateRequest) (n t a : String)
    (hn : r.name = some n) (ht : r.topic = some t) (ha : r.target_audience = some a)
    (hln : 1 ≤ n.length) (hlt : 10 ≤ t.length) (cid now : String) :
    ∃ cc, validateCampaignCreate r = .ok cc ∧
      cc.name = n ∧ cc.topic = t ∧ cc.target_audience = a ∧
      (createCampaign cc cid now).status = "pending" ∧
      (createCampaign cc cid now).stages.map (fun st => (st.agent, st.status, st.output))
        = [("researcher", "pending", none), ("copywriter", "pending", none),
           ("designer", "pending", none), ("reviewer", "pending", none)] ∧
      (createCampaign cc cid now).final_content = none := by
  have hv : validateCampaignCreate r =
      .ok { name := n, topic := t, target_audience := a,
            tone := r.tone.getD "professional",
            content_type := r.content_type.getD "blog_post" } := by
    simp only [validateCampaignCreate, hn, ht, ha]
    rw [if_neg (by omega), if_neg (by omega)]
  exact ⟨_, hv, rfl, rfl, rfl, rfl, rfl, rfl⟩

/-- C6 witness: the amended theorem applied to the end-to-end scenario
request. -/
theorem create_accepts_valid_requests_witness :
    ∃ cc, validateCampaignCreate validRequest = .ok cc ∧
      cc.name = "EV Launch" ∧ cc.topic = "Electric Vehicles" ∧
      cc.target_audience = "Urban commuters" ∧
      (createCampaign cc "campaign-1" "T0").status = "pending" ∧
      (createCampaign cc "campaign-1" "T0").stages.map
          (fun st => (st.agent, st.status, st.output))
        = [("researcher", "pending", none), ("copywriter", "pending", none),
           ("designer", "pending", none), ("reviewer", "pending", none)] ∧
      (createCampaign cc "campaign-1" "T0").final_content = none :=
  create_accepts_valid_requests validRequest "EV Launch" "Electric Vehicles"
    "Urban commuters" rfl rfl rfl (by decide) (by decide) "campaign-1" "T0"

/-- C7: CampaignWorkflow.execute never raises and always returns the
structured result with the research, copy, design, review and
final_content entries of the final pipeline state; moreover every stage
body exception is caught at the stage boundary and converted to that
stage's error string. -/
theorem workflow_execute_total_and_catches (i : WorkflowInputs) (oc : StageOutcomes)
    (now : String) :
    executeWorkflow i oc now =
      { research := (runPipeline i oc now).research
        copy := (runPipeline i oc now).copy
        design := (runPipeline i oc now).design
        review := (runPipeline i oc now).review
        final_content := (runPipeline i oc now).final_content } ∧
    (∀ s e, oc.researchOutcome (nodeEntryState "research" s) = .error e →
        (researcherNode oc s).research_error = some e) ∧
    (∀ s e, pyTruthyOpt s.research_error = false →
        oc.copyOutcome (nodeEntryState "copywriter" s) = .error e →
        (copywriterNode oc s).copy_error = some e) ∧
    (∀ s e, pyTruthyOpt s.copy_error = false →
        oc.designOutcome (nodeEntryState "designer" s) = .error e →
        (designerNode oc s).design_error = some e) ∧
    (∀ s e, pyTruthyOpt s.design_error = false →
        oc.reviewOutcome (nodeEntryState "reviewer" s) = .error e →
        (reviewerNode oc now s).review_error = some e) := by
  refine ⟨rfl, ?_, ?_, ?_, ?_⟩
  · intro s e h; simp [researcherNode, h]
  · intro s e hb h; simp [copywriterNode, hb, h]
  · intro s e hb h; simp [designerNode, hb, h]
  · intro s e hb h; simp [reviewerNode, hb, h]

/-- C7 witness: the structured-result equation on the mock run, and each
conversion clause applied to the all-failing outcomes on the initial
state. -/
theorem workflow_execute_total_witness :
    executeWorkflow demoInputs mockOutcomes "T" =
      { research := (runPipeline demoInputs mockOutcomes "T").research
        copy := (runPipeline demoInputs mockOutcomes "T").copy
        design := (runPipeline demoInputs mockOutcomes "T").design
        review := (runPipeline demoInputs mockOutcomes "T").review
        final_content := (runPipeline demoInputs mockOutcomes "T").final_content } ∧
    (researcherNode errAllOutcomes (initialState demoInputs)).research_error = some "boom" ∧
    (copywriterNode errAllOutcomes (initialState demoInputs)).copy_error = some "boom" ∧
    (designerNode errAllOutcomes (initialState demoInputs)).design_error = some "boom" ∧
    (reviewerNode errAllOutcomes "T" (initialState demoInputs)).review_error = some "boom" :=
  ⟨(workflow_execute_total_and_catches demoInputs mockOutcomes "T").1,
   (workflow_execute_total_and_catches demoInputs errAllOutcomes "T").2.1
     (initialState demoInputs) "boom" rfl,
   (workflow_execute_total_and_catches demoInputs errAllOutcomes "T").2.2.1
     (initialState demoInputs) "boom" rfl rfl,
   (workflow_execute_total_and_catches demoInputs errAllOutcomes "T").2.2.2.1
     (initialState demoInputs) "boom" rfl rfl,
   (workflow_execute_total_and_catches demoInputs errAllOutcomes "T").2.2.2.2
     (initialState demoInputs) "boom" rfl rfl⟩

/-- C1: on the end-to-end mock run, execute_campaign sets the campaign
status to completed and copies the final content, but every one of the
four stage records is left pending with no output and the workflow result
did contain outputs for all four stages: the update loop looks the result
dict up by agent name (researcher, copywriter, designer, reviewer) while
the result keys are research, copy, design, review, so the condition never
fires. -/
theorem execute_campaign_stages_left_pending :
    (executeCampaign demoCampaign mockOutcomes "T1").status = "completed" ∧
    (executeCampaign demoCampaign mockOutcomes "T1").stages.map
        (fun st => (st.agent, st.status, st.output))
      = [("researcher", "pending", none), ("copywriter", "pending", none),
         ("designer", "pending", none), ("reviewer", "pending", none)] ∧
    (executeWorkflow
        { topic := "Electric Vehicles", target_audience := "Urban commuters",
          tone := "casual", content_type := "social_media" }
        mockOutcomes "T1").research.isSome = true ∧
    (executeWorkflow
        { topic := "Electric Vehicles", target_audience := "Urban commuters",
          tone := "casual", content_type := "social_media" }
        mockOutcomes "T1").copy.isSome = true ∧
    (executeWorkflow
        { topic := "Electric Vehicles", target_audience := "Urban commuters",
          tone := "casual", content_type := "social_media" }
        mockOutcomes "T1").design.isSome = true ∧
    (executeWorkflow
        { topic := "Electric Vehicles", target_audience := "Urban commuters",
          tone := "casual", content_type := "social_media" }
        mockOutcomes "T1").review.isSome = true ∧
    (executeCampaign demoCampaign mockOutcomes "T1").final_content.isSome = true := by
  refine ⟨rfl, rfl, rfl, rfl, rfl, rfl, rfl⟩
